import Mathlib

/-!
Shallow embedding of the GridLAB-D powerflow pole component
(module/powerflow/pole.cpp): data model, the four phase handlers
(precommit, presync, sync, postsync) and initialization, together with
theorems checking the specified behaviour of the pole failure analysis.

Doubles are modelled by real numbers; the C INFINITY stored in the
pole_stress field is modelled by the top element of EReal; timestamps
(TIMESTAMP) are integers counting seconds; the C truncating cast from
double to int is modelled by rtrunc below.
-/

/-- Pole status enumeration: keywords OK and FAILED of the published
status property. -/
inductive PoleStatus where
  | PS_OK : PoleStatus
  | PS_FAILED : PoleStatus
deriving DecidableEq

open PoleStatus

/-- Return value of a phase handler: TS_NEVER, TS_INVALID, or a concrete
timestamp. -/
inductive TS where
  | never : TS
  | invalid : TS
  | time : ℤ → TS
deriving DecidableEq

/-- The pole_configuration object referenced by the pole (the fields read
by pole.cpp). -/
structure pole_configuration where
  pole_length : ℝ
  pole_depth : ℝ
  ground_diameter : ℝ
  top_diameter : ℝ
  strength_factor_250b_wood : ℝ
  fiber_strength : ℝ
  degradation_rate : ℝ
  overload_factor_transverse_general : ℝ
  material_density : ℝ
  repair_time : ℝ

/-- State of a pole object: the published properties and internal members
of class pole used by the phase handlers. -/
structure PoleState where
  pole_status : PoleStatus
  tilt_angle : ℝ
  tilt_direction : ℝ
  install_year : ℤ
  repair_time : ℝ
  wind_speed : ℝ
  wind_direction : ℝ
  wind_gusts : ℝ
  pole_stress : EReal
  pole_stress_polynomial_a : ℝ
  pole_stress_polynomial_b : ℝ
  pole_stress_polynomial_c : ℝ
  susceptibility : ℝ
  total_moment : ℝ
  resisting_moment : ℝ
  pole_moment : ℝ
  pole_moment_nowind : ℝ
  equipment_moment : ℝ
  equipment_moment_nowind : ℝ
  wire_moment : ℝ
  wire_moment_nowind : ℝ
  wire_tension : ℝ
  wire_load : ℝ
  wire_load_nowind : ℝ
  critical_wind_speed : ℝ
  guy_height : ℝ
  height : ℝ
  last_wind_speed : ℝ
  down_time : ℤ
  current_hollow_diameter : ℝ
  wind_pressure : ℝ
  recalc : Bool
  config : pole_configuration

/-- Contributions written additively into the pole accumulators by
pole_mount / wire collaborators during the sync window. -/
structure Contrib where
  pole_moment : ℝ
  equipment_moment : ℝ
  wire_moment : ℝ
  wire_tension : ℝ
  wire_load : ℝ
  equipment_moment_nowind : ℝ
  wire_moment_nowind : ℝ
  wire_load_nowind : ℝ

/-- C truncating cast (int)(x) from double: rounds toward zero. -/
noncomputable def rtrunc (x : ℝ) : ℤ := if 0 ≤ x then ⌊x⌋ else ⌈x⌉

/-- Year of a timestamp: 1970 + (int)(t0/86400/365.24) with C integer
division of the timestamp by 86400. -/
noncomputable def tyear (t0 : ℤ) : ℤ :=
  1970 + rtrunc (((Int.tdiv t0 86400 : ℤ) : ℝ) / 365.24)

/-- reset_commit_accumulators: zero the nowind accumulators rebuilt each
step by collaborators. -/
def reset_commit_accumulators (s : PoleState) : PoleState :=
  { s with equipment_moment_nowind := 0, wire_load_nowind := 0,
           wire_moment_nowind := 0 }

/-- reset_sync_accumulators: zero the per-step moment accumulators. -/
def reset_sync_accumulators (s : PoleState) : PoleState :=
  { s with pole_moment := 0, equipment_moment := 0, wire_moment := 0,
           wire_tension := 0, wire_load := 0 }

/-- Weather pull at the top of precommit: each bound reference overwrites
the local field (none = no reference bound at init). -/
def weather_update (ws wd wg : Option ℝ) (s : PoleState) : PoleState :=
  { s with wind_speed := ws.getD s.wind_speed,
           wind_direction := wd.getD s.wind_direction,
           wind_gusts := wg.getD s.wind_gusts }

/-- Degradation of the hollow diameter in precommit: the nested
conditional of pole.cpp (outer age and rate test, inner age test). -/
noncomputable def update_hollow_diameter (rate age prev : ℝ) : ℝ :=
  if 0 < age ∧ 0 < rate then
    (if 0 < age then 2.0 * age * rate else 0.0)
  else prev

/-- Degraded resisting moment recomputed each precommit:
0.008186 * strength factor * fiber strength * (gd^3 - hollow^3). -/
noncomputable def resisting_moment_degraded (sf fs gd hd : ℝ) : ℝ :=
  0.008186 * sf * fs * ((gd * gd * gd) - (hd * hd * hd))

/-- Degradation section of precommit: update current_hollow_diameter from
the age implied by t0, then recompute resisting_moment. -/
noncomputable def degrade_update (t0 : ℤ) (s : PoleState) : PoleState :=
  let age : ℝ := ((tyear t0 : ℤ) : ℝ) - ((s.install_year : ℤ) : ℝ)
  let hd : ℝ := update_hollow_diameter s.config.degradation_rate age
      s.current_hollow_diameter
  let rm : ℝ := resisting_moment_degraded s.config.strength_factor_250b_wood
      s.config.fiber_strength s.config.ground_diameter hd
  { s with current_hollow_diameter := hd, resisting_moment := rm }

/-- Repair trigger body of precommit: reset tilt, return status to OK,
reset install year to the current year, flag recalculation. -/
noncomputable def repair_update (t0 : ℤ) (s : PoleState) : PoleState :=
  { s with tilt_angle := 0.0, tilt_direction := 0.0, pole_status := PS_OK,
           install_year := tyear t0, recalc := true }

/-- Wind change trigger body of precommit: clamp a negative resisting
moment, add the static tilt moment, compute wind pressure and the no-wind
pole moment, the critical wind speed, and combine tilt and directional
wind moments vectorially; latch the wind speed and flag recalculation. -/
noncomputable def wind_change_update (s : PoleState) : PoleState :=
  let s1 := if s.resisting_moment < 0 then { s with resisting_moment := 0.0 }
            else s
  let D1 : ℝ := s1.config.top_diameter / 12
  let D0 : ℝ := s1.config.ground_diameter / 12
  let DD : ℝ := (D0 - D1) / 2
  let s2 := if 0 < s1.tilt_angle then
      { s1 with pole_moment := s1.pole_moment +
          0.125 * s1.config.material_density * Real.pi
            * (s1.height * s1.height) * (D0 * D0 - DD * DD)
            * Real.sin (s1.tilt_angle / 180 * Real.pi) }
    else s1
  let wp : ℝ := 0.00256 * 2.24 * s2.wind_speed * s2.wind_speed
  let pmn : ℝ := s2.height * s2.height
      * (s2.config.ground_diameter + 2 * s2.config.top_diameter) / 72
      * s2.config.overload_factor_transverse_general
  let wpf : ℝ := (s2.resisting_moment - s2.wire_tension)
      / (pmn + s2.equipment_moment_nowind + s2.wire_moment_nowind)
  let s3 :=
    { s2 with wind_pressure := wp, pole_moment_nowind := pmn,
              critical_wind_speed := Real.sqrt (wpf / (0.00256 * 2.24)),
              last_wind_speed := s2.wind_speed }
  let s4 := if 0 < s3.wind_pressure then
      let beta : ℝ := (s3.tilt_direction - s3.wind_direction) / 180 * Real.pi
      let wind_moment : ℝ := s3.wind_pressure * s3.height * s3.height
          * (s3.config.ground_diameter / 12 + 2 * (s3.config.top_diameter / 12))
          / 72 * s3.config.overload_factor_transverse_general
      let x : ℝ := s3.pole_moment + wind_moment * Real.cos beta
      let y : ℝ := wind_moment * Real.sin beta
      { s3 with pole_moment := Real.sqrt (x * x + y * y) }
    else s3
  { s4 with recalc := true }

/-- pole::precommit: reset commit accumulators, pull weather, advance
degradation, then evaluate the repair trigger and (exclusively) the wind
change trigger; always returns TS_NEVER. The argument t0 is the handler
argument and clock is gl_globalclock. -/
noncomputable def precommit (t0 clock : ℤ) (ws wd wg : Option ℝ)
    (s : PoleState) : PoleState × TS :=
  let s1 := degrade_update t0 (weather_update ws wd wg
              (reset_commit_accumulators s))
  if s1.pole_status = PS_FAILED ∧
      ((clock - s1.down_time : ℤ) : ℝ) / 3600.0 > s1.repair_time then
    (repair_update t0 s1, TS.never)
  else if s1.pole_status = PS_OK ∧ s1.last_wind_speed ≠ s1.wind_speed then
    (wind_change_update s1, TS.never)
  else
    (s1, TS.never)

/-- pole::presync: reset the sync accumulators when recalc is flagged. -/
def presync (s : PoleState) : PoleState × TS :=
  (if s.recalc then reset_sync_accumulators s else s, TS.never)

/-- pole::sync: a no-op for the pole itself. -/
def sync (s : PoleState) : PoleState × TS := (s, TS.never)

/-- Sync window writes by collaborating pole_mount / wire objects:
additive contributions into the pole accumulators. -/
def applySyncContrib (c : Contrib) (s : PoleState) : PoleState :=
  { s with pole_moment := s.pole_moment + c.pole_moment,
           equipment_moment := s.equipment_moment + c.equipment_moment,
           wire_moment := s.wire_moment + c.wire_moment,
           wire_tension := s.wire_tension + c.wire_tension,
           wire_load := s.wire_load + c.wire_load,
           equipment_moment_nowind :=
             s.equipment_moment_nowind + c.equipment_moment_nowind,
           wire_moment_nowind := s.wire_moment_nowind + c.wire_moment_nowind,
           wire_load_nowind := s.wire_load_nowind + c.wire_load_nowind }

/-- pole::postsync: when recalc is flagged, combine the accumulators into
the total moment, compute susceptibility and pole stress, decide the
failure status (stamping down_time from the global clock on failure), set
the stress polynomial coefficients, clear recalc, and schedule the next
event (TS_INVALID when the stop_on_pole_failure global is set); otherwise
a no-op returning TS_NEVER. -/
noncomputable def postsync (stop_on_pole_failure : Bool) (clock : ℤ)
    (s : PoleState) : PoleState × TS :=
  if s.recalc then
    let total : ℝ := s.pole_moment + s.equipment_moment + s.wire_moment
        + s.wire_tension
    let susc : ℝ := if 0 < s.wind_speed then
        2 * (s.pole_moment + s.equipment_moment + s.wire_moment)
          / s.resisting_moment / s.wind_speed / 0.00256 / 2.24
      else 0.0
    let stress : EReal := if 0 < s.resisting_moment then
        ((total / s.resisting_moment : ℝ) : EReal)
      else (⊤ : EReal)
    let status := if stress < (1 : EReal) then PS_OK else PS_FAILED
    let dt : ℤ := if status = PS_FAILED then clock else s.down_time
    let psa : ℝ := s.pole_moment_nowind + s.equipment_moment_nowind
        + s.wire_moment_nowind
    let s1 :=
      { s with total_moment := total, susceptibility := susc,
               pole_stress := stress, pole_status := status,
               down_time := dt,
               pole_stress_polynomial_a := psa,
               pole_stress_polynomial_b := 0.0,
               pole_stress_polynomial_c := s.wire_tension,
               recalc := false }
    let next_event : TS := if status = PS_FAILED then
        TS.time (dt + rtrunc (s.repair_time * 3600)) else TS.never
    (s1, if stop_on_pole_failure then TS.invalid else next_event)
  else
    (s, TS.never)

/-- One full simulation step of the pole: precommit, presync, the sync
window during which collaborators add their contributions, then
postsync. -/
noncomputable def fullStep (stop_on_pole_failure : Bool) (t0 clock : ℤ)
    (ws wd wg : Option ℝ) (c : Contrib) (s : PoleState) : PoleState × TS :=
  postsync stop_on_pole_failure clock
    (applySyncContrib c (presync (precommit t0 clock ws wd wg s).1).1)

/-- Reference to the configuration object: absent, bound to an object of
the wrong class, or bound to a pole_configuration. -/
inductive ConfigRef where
  | missing : ConfigRef
  | notPoleConfig : ConfigRef
  | valid : pole_configuration → ConfigRef

/-- pole::init: reject a missing or wrongly typed configuration, resolve
the repair time (local value, then configuration value, then the module
default; fatal when none is positive), validate tilt angle and direction,
then compute effective height, initial resisting moment from the linearly
interpolated diameter, and the no-wind pole moment. Returns none on a
fatal initialization error. -/
noncomputable def init (cref : ConfigRef) (default_repair_time : ℝ)
    (s : PoleState) : Option PoleState :=
  match cref with
  | ConfigRef.missing => none
  | ConfigRef.notPoleConfig => none
  | ConfigRef.valid cfg =>
    let rt : ℝ := if s.repair_time ≤ 0 then
        (if 0 < cfg.repair_time then cfg.repair_time
         else if 0 < default_repair_time then default_repair_time else 0)
      else s.repair_time
    if s.repair_time ≤ 0 ∧ ¬ 0 < cfg.repair_time
        ∧ ¬ 0 < default_repair_time then none
    else if s.tilt_angle < 0 ∨ 90 < s.tilt_angle then none
    else if s.tilt_direction < 0 ∨ 360 ≤ s.tilt_direction then none
    else
      let height : ℝ := cfg.pole_length - cfg.pole_depth - s.guy_height
      let diameter : ℝ := cfg.ground_diameter
          - height / (cfg.pole_length - cfg.pole_depth)
            * (cfg.ground_diameter - cfg.top_diameter)
      let rm : ℝ := 0.008186 * cfg.strength_factor_250b_wood
          * cfg.fiber_strength * (diameter * diameter * diameter)
      let pmn : ℝ := height * height
          * (cfg.ground_diameter + 2 * cfg.top_diameter) / 72
          * cfg.overload_factor_transverse_general
      some
        { s with config := cfg, repair_time := rt, height := height,
                 resisting_moment := rm, pole_moment_nowind := pmn }

/-- A concrete configuration used by witnesses and counterexamples. -/
def cfg0 : pole_configuration :=
  { pole_length := 45, pole_depth := 6, ground_diameter := 1,
    top_diameter := 1, strength_factor_250b_wood := 1, fiber_strength := 1,
    degradation_rate := 1, overload_factor_transverse_general := 1,
    material_density := 1, repair_time := 24 }

/-- A concrete baseline pole state used by witnesses and
counterexamples. -/
def base : PoleState :=
  { pole_status := PS_OK, tilt_angle := 0, tilt_direction := 0,
    install_year := 2000, repair_time := 24, wind_speed := 0,
    wind_direction := 0, wind_gusts := 0, pole_stress := 0,
    pole_stress_polynomial_a := 0, pole_stress_polynomial_b := 0,
    pole_stress_polynomial_c := 0, susceptibility := 0, total_moment := 0,
    resisting_moment := 0, pole_moment := 0, pole_moment_nowind := 0,
    equipment_moment := 0, equipment_moment_nowind := 0, wire_moment := 0,
    wire_moment_nowind := 0, wire_tension := 0, wire_load := 0,
    wire_load_nowind := 0, critical_wind_speed := 0, guy_height := 0,
    height := 39, last_wind_speed := 0, down_time := 0,
    current_hollow_diameter := 0, wind_pressure := 0, recalc := false,
    config := cfg0 }

/-- Zero contribution from collaborators (no attached equipment). -/
def noContrib : Contrib :=
  { pole_moment := 0, equipment_moment := 0, wire_moment := 0,
    wire_tension := 0, wire_load := 0, equipment_moment_nowind := 0,
    wire_moment_nowind := 0, wire_load_nowind := 0 }

/-- Recalculating state whose accumulators give stress 0 on a sound pole:
postsync on it yields status OK. -/
def exC3 : PoleState := { base with recalc := true, resisting_moment := 1 }

/-- A failed pole whose hollow diameter already exceeds the ground
diameter, before its repair time has elapsed: the degradation
recomputation drives resisting_moment negative and no clamp applies. -/
def exC2 : PoleState :=
  { base with pole_status := PS_FAILED, current_hollow_diameter := 2,
              down_time := 0, repair_time := 100 }

/-- Auxiliary: a real coercion into EReal is below 1 when the real is. -/
theorem ereal_coe_lt_one {r : ℝ} (h : r < 1) : (r : EReal) < 1 := by
  rw [← EReal.coe_one, EReal.coe_lt_coe_iff]
  exact h

/-- C1: in a recalculating postsync, total_moment is the sum of the four
accumulators; pole_stress is total over resisting when resisting_moment
is positive and plus infinity when it is zero; the status becomes FAILED
exactly when pole_stress is at least 1; and on FAILED the down time is
stamped with the global clock. -/
theorem c1_postsync_stress (stop : Bool) (clock : ℤ) (s : PoleState)
    (h : s.recalc = true) :
    (postsync stop clock s).1.total_moment
        = s.pole_moment + s.equipment_moment + s.wire_moment
          + s.wire_tension ∧
    (0 < s.resisting_moment →
      (postsync stop clock s).1.pole_stress
        = (((s.pole_moment + s.equipment_moment + s.wire_moment
              + s.wire_tension) / s.resisting_moment : ℝ) : EReal)) ∧
    (s.resisting_moment = 0 →
      (postsync stop clock s).1.pole_stress = (⊤ : EReal)) ∧
    ((postsync stop clock s).1.pole_status = PS_FAILED
        ↔ (1 : EReal) ≤ (postsync stop clock s).1.pole_stress) ∧
    ((postsync stop clock s).1.pole_status = PS_FAILED
        → (postsync stop clock s).1.down_time = clock) := by
  simp only [postsync, h, eq_self_iff_true, if_true]
  refine ⟨trivial, ?_, ?_, ?_, ?_⟩
  · intro hrm
    rw [if_pos hrm]
  · intro hrm
    rw [if_neg (by simp [hrm])]
  · by_cases hlt : (if 0 < s.resisting_moment then
        (((s.pole_moment + s.equipment_moment + s.wire_moment
            + s.wire_tension) / s.resisting_moment : ℝ) : EReal)
        else (⊤ : EReal)) < (1 : EReal)
    · rw [if_pos hlt]
      exact iff_of_false (by simp) (not_le.mpr hlt)
    · rw [if_neg hlt]
      exact iff_of_true rfl (not_lt.mp hlt)
  · intro hfail
    rw [if_pos hfail]

/-- C1 witness: the theorem instantiated at a concrete recalculating
state. -/
theorem c1_postsync_stress_witness :
    exC3.recalc = true ∧
    ((postsync false 0 exC3).1.total_moment
        = exC3.pole_moment + exC3.equipment_moment + exC3.wire_moment
          + exC3.wire_tension ∧
    (0 < exC3.resisting_moment →
      (postsync false 0 exC3).1.pole_stress
        = (((exC3.pole_moment + exC3.equipment_moment + exC3.wire_moment
              + exC3.wire_tension) / exC3.resisting_moment : ℝ) : EReal)) ∧
    (exC3.resisting_moment = 0 →
      (postsync false 0 exC3).1.pole_stress = (⊤ : EReal)) ∧
    ((postsync false 0 exC3).1.pole_status = PS_FAILED
        ↔ (1 : EReal) ≤ (postsync false 0 exC3).1.pole_stress) ∧
    ((postsync false 0 exC3).1.pole_status = PS_FAILED
        → (postsync false 0 exC3).1.down_time = 0)) :=
  ⟨rfl, c1_postsync_stress false 0 exC3 rfl⟩

/-- C6: in a recalculating postsync, susceptibility is exactly 0 when the
wind speed is 0, whatever the accumulators and the resisting moment hold,
and equals the stated quotient when the wind speed is positive. -/
theorem c6_susceptibility (stop : Bool) (clock : ℤ) (s : PoleState)
    (h : s.recalc = true) :
    (s.wind_speed = 0 → (postsync stop clock s).1.susceptibility = 0) ∧
    (0 < s.wind_speed →
      (postsync stop clock s).1.susceptibility
        = 2 * (s.pole_moment + s.equipment_moment + s.wire_moment)
            / s.resisting_moment / s.wind_speed / 0.00256 / 2.24) := by
  simp only [postsync, h, eq_self_iff_true, if_true]
  constructor
  · intro h0
    rw [if_neg (by simp [h0])]
    norm_num
  · intro hpos
    rw [if_pos hpos]

/-- C6 witness: the theorem instantiated at a concrete recalculating
state with zero wind speed. -/
theorem c6_susceptibility_witness :
    exC3.recalc = true ∧
    ((exC3.wind_speed = 0 →
        (postsync false 0 exC3).1.susceptibility = 0) ∧
    (0 < exC3.wind_speed →
      (postsync false 0 exC3).1.susceptibility
        = 2 * (exC3.pole_moment + exC3.equipment_moment + exC3.wire_moment)
            / exC3.resisting_moment / exC3.wind_speed / 0.00256 / 2.24)) :=
  ⟨rfl, c6_susceptibility false 0 exC3 rfl⟩

/-- C8: when recalc is not set, postsync is a no-op returning TS_NEVER,
once and repeatedly: the whole state, and in particular total_moment,
pole_stress, status, susceptibility, down_time and the stress polynomial
coefficients, is unchanged. -/
theorem c8_postsync_noop (stop : Bool) (clock : ℤ) (s : PoleState)
    (h : s.recalc = false) :
    postsync stop clock s = (s, TS.never) ∧
    postsync stop clock (postsync stop clock s).1 = (s, TS.never) := by
  have h1 : postsync stop clock s = (s, TS.never) := by
    simp [postsync, h]
  refine ⟨h1, ?_⟩
  rw [h1]
  exact h1

/-- C8 witness: the theorem instantiated at the concrete baseline state,
which has recalc unset. -/
theorem c8_postsync_noop_witness :
    base.recalc = false ∧
    (postsync true 0 base = (base, TS.never) ∧
     postsync true 0 (postsync true 0 base).1 = (base, TS.never)) :=
  ⟨rfl, c8_postsync_noop true 0 base rfl⟩

/-- Auxiliary: the hollow diameter update under a positive degradation
rate applies exactly when the age is positive. -/
theorem update_hollow_diameter_eq (rate age prev : ℝ) (hrate : 0 < rate) :
    update_hollow_diameter rate age prev
      = if 0 < age then 2.0 * age * rate else prev := by
  unfold update_hollow_diameter
  split_ifs with h1 h2 h3
  · rfl
  · exact absurd h1.1 h2
  · exact absurd ⟨h3, hrate⟩ h1
  · rfl

/-- C5: with a positive degradation rate held constant, the commit-phase
degradation update keeps the previous hollow diameter for non-positive
age and overwrites it with 2 x age x rate for positive age (this is what
degrade_update applies); from the created state the hollow diameter is
non-decreasing in age; and the recomputed resisting moment is
non-increasing in the hollow diameter (material factors non-negative). -/
theorem c5_degradation_monotone (t0 : ℤ) (s : PoleState)
    (rate sf fs gd prev age a1 a2 hd1 hd2 : ℝ)
    (hrate : 0 < rate) (hsf : 0 ≤ sf) (hfs : 0 ≤ fs)
    (ha : a1 ≤ a2) (hh : hd1 ≤ hd2) :
    update_hollow_diameter rate age prev
        = (if 0 < age then 2.0 * age * rate else prev) ∧
    update_hollow_diameter rate a1 0 ≤ update_hollow_diameter rate a2 0 ∧
    resisting_moment_degraded sf fs gd hd2
        ≤ resisting_moment_degraded sf fs gd hd1 ∧
    (degrade_update t0 s).current_hollow_diameter
        = update_hollow_diameter s.config.degradation_rate
            (((tyear t0 : ℤ) : ℝ) - ((s.install_year : ℤ) : ℝ))
            s.current_hollow_diameter ∧
    (degrade_update t0 s).resisting_moment
        = resisting_moment_degraded s.config.strength_factor_250b_wood
            s.config.fiber_strength s.config.ground_diameter
            ((degrade_update t0 s).current_hollow_diameter) := by
  refine ⟨update_hollow_diameter_eq rate age prev hrate, ?_, ?_, rfl, rfl⟩
  · rw [update_hollow_diameter_eq rate a1 0 hrate,
        update_hollow_diameter_eq rate a2 0 hrate]
    split_ifs with h1 h2
    · nlinarith
    · exact absurd (lt_of_lt_of_le h1 ha) h2
    · nlinarith
    · exact le_refl 0
  · unfold resisting_moment_degraded
    have hcube : hd1 * hd1 * hd1 ≤ hd2 * hd2 * hd2 := by
      nlinarith [sq_nonneg (hd1 + hd2), sq_nonneg (hd1 - hd2),
                 sq_nonneg hd1, sq_nonneg hd2]
    have hnn : 0 ≤ sf * fs := mul_nonneg hsf hfs
    nlinarith [mul_nonneg hnn (sub_nonneg.mpr hcube)]

/-- C5 witness: the theorem instantiated at concrete values. -/
theorem c5_degradation_monotone_witness :
    (0:ℝ) < 1 ∧ (0:ℝ) ≤ 1 ∧ (0:ℝ) ≤ 1 ∧ (0:ℝ) ≤ 1 ∧ (0:ℝ) ≤ 1 ∧
    (update_hollow_diameter 1 1 0
        = (if (0:ℝ) < 1 then 2.0 * 1 * 1 else (0:ℝ)) ∧
    update_hollow_diameter 1 0 0 ≤ update_hollow_diameter 1 1 0 ∧
    resisting_moment_degraded 1 1 1 1 ≤ resisting_moment_degraded 1 1 1 0 ∧
    (degrade_update 0 base).current_hollow_diameter
        = update_hollow_diameter base.config.degradation_rate
            (((tyear 0 : ℤ) : ℝ) - ((base.install_year : ℤ) : ℝ))
            base.current_hollow_diameter ∧
    (degrade_update 0 base).resisting_moment
        = resisting_moment_degraded base.config.strength_factor_250b_wood
            base.config.fiber_strength base.config.ground_diameter
            ((degrade_update 0 base).current_hollow_diameter)) :=
  ⟨by norm_num, by norm_num, by norm_num, by norm_num, by norm_num,
   c5_degradation_monotone 0 base 1 1 1 1 0 1 0 1 0 1
     (by norm_num) (by norm_num) (by norm_num) (by norm_num) (by norm_num)⟩

/-- Auxiliary: the wind change trigger leaves resisting_moment at its
incoming value except for the clamp of a negative value to zero. -/
theorem wind_change_resisting (s : PoleState) :
    (wind_change_update s).resisting_moment
      = if s.resisting_moment < 0 then 0.0 else s.resisting_moment := by
  simp only [wind_change_update]
  split_ifs <;> rfl

/-- C2 counterexample: a FAILED pole before its repair time whose
degradation recomputation drives resisting_moment negative keeps the
negative value through precommit: no clamp occurs outside the wind
change trigger, refuting the claim that the clamp happens regardless of
pole status or wind change. -/
theorem c2_counterexample :
    (precommit 0 0 none none none exC2).1.resisting_moment < 0 := by
  norm_num [precommit, degrade_update, weather_update,
    reset_commit_accumulators, update_hollow_diameter,
    resisting_moment_degraded, exC2, base, cfg0, tyear, rtrunc]

/-- C2 amended: resisting_moment is guaranteed non-negative after
precommit exactly in the wind-change branch: when the pole status is OK
and the (possibly weather-sourced) wind speed differs from the
last-observed wind speed, a negative recomputed resisting moment is
clamped to zero in the same step. -/
theorem c2_amended_clamp (t0 clock : ℤ) (ws wd wg : Option ℝ)
    (s : PoleState) (hOK : s.pole_status = PS_OK)
    (hw : s.last_wind_speed ≠ ws.getD s.wind_speed) :
    0 ≤ (precommit t0 clock ws wd wg s).1.resisting_moment := by
  have hst : (degrade_update t0 (weather_update ws wd wg
      (reset_commit_accumulators s))).pole_status = s.pole_status := rfl
  have hlast : (degrade_update t0 (weather_update ws wd wg
      (reset_commit_accumulators s))).last_wind_speed
        = s.last_wind_speed := rfl
  have hwind : (degrade_update t0 (weather_update ws wd wg
      (reset_commit_accumulators s))).wind_speed
        = ws.getD s.wind_speed := rfl
  simp only [precommit]
  rw [if_neg, if_pos]
  · rw [wind_change_resisting]
    split_ifs with hneg
    · norm_num
    · exact not_lt.mp hneg
  · exact ⟨hst.trans hOK, by rw [hlast, hwind]; exact hw⟩
  · simp [hst, hOK]

/-- C2 amended witness: the amended theorem instantiated at a concrete
OK state observing a wind speed change. -/
theorem c2_amended_clamp_witness :
    ({ base with wind_speed := 1 } : PoleState).pole_status = PS_OK ∧
    ({ base with wind_speed := 1 } : PoleState).last_wind_speed
        ≠ (none : Option ℝ).getD
            ({ base with wind_speed := 1 } : PoleState).wind_speed ∧
    0 ≤ (precommit 0 0 none none none
          { base with wind_speed := 1 }).1.resisting_moment :=
  ⟨rfl, by simp [base], c2_amended_clamp 0 0 none none none
      { base with wind_speed := 1 } rfl (by simp [base])⟩

/-- Auxiliary: postsync without the recalc flag is the identity,
returning TS_NEVER. -/
theorem postsync_not_recalc (stop : Bool) (clock : ℤ) (s : PoleState)
    (h : s.recalc = false) : postsync stop clock s = (s, TS.never) := by
  simp [postsync, h]

/-- C4: for a FAILED pole, as long as the elapsed hours since down_time
do not exceed repair_time (and no recalculation is pending) a full step
leaves the status FAILED with down_time, tilt and install_year intact;
once the elapsed hours exceed repair_time, the commit-phase handler
resets tilt angle and direction to 0, returns the status to OK, resets
install_year to the current year and sets the recalc flag. -/
theorem c4_repair_law (stop : Bool) (t0 clock : ℤ) (ws wd wg : Option ℝ)
    (c : Contrib) (s : PoleState) (hF : s.pole_status = PS_FAILED) :
    (((clock - s.down_time : ℤ) : ℝ) / 3600.0 ≤ s.repair_time
        ∧ s.recalc = false →
      (fullStep stop t0 clock ws wd wg c s).1.pole_status = PS_FAILED ∧
      (fullStep stop t0 clock ws wd wg c s).1.down_time = s.down_time ∧
      (fullStep stop t0 clock ws wd wg c s).1.tilt_angle = s.tilt_angle ∧
      (fullStep stop t0 clock ws wd wg c s).1.install_year
          = s.install_year) ∧
    (((clock - s.down_time : ℤ) : ℝ) / 3600.0 > s.repair_time →
      (precommit t0 clock ws wd wg s).1.tilt_angle = 0 ∧
      (precommit t0 clock ws wd wg s).1.tilt_direction = 0 ∧
      (precommit t0 clock ws wd wg s).1.pole_status = PS_OK ∧
      (precommit t0 clock ws wd wg s).1.install_year = tyear t0 ∧
      (precommit t0 clock ws wd wg s).1.recalc = true) := by
  have hst : (degrade_update t0 (weather_update ws wd wg
      (reset_commit_accumulators s))).pole_status = s.pole_status := rfl
  have hdt : (degrade_update t0 (weather_update ws wd wg
      (reset_commit_accumulators s))).down_time = s.down_time := rfl
  have hrt : (degrade_update t0 (weather_update ws wd wg
      (reset_commit_accumulators s))).repair_time = s.repair_time := rfl
  have hrec : (degrade_update t0 (weather_update ws wd wg
      (reset_commit_accumulators s))).recalc = s.recalc := rfl
  constructor
  · rintro ⟨hle, hrecF⟩
    have hpre : (precommit t0 clock ws wd wg s).1
        = degrade_update t0 (weather_update ws wd wg
            (reset_commit_accumulators s)) := by
      simp only [precommit]
      rw [if_neg, if_neg]
      · rintro ⟨hok, -⟩
        rw [hst, hF] at hok
        exact absurd hok (by decide)
      · rintro ⟨-, hgt⟩
        rw [hdt, hrt] at hgt
        exact absurd hgt (not_lt.mpr hle)
    have hpres : (presync (precommit t0 clock ws wd wg s).1).1
        = (precommit t0 clock ws wd wg s).1 := by
      rw [hpre]
      simp [presync, hrec, hrecF]
    have hnorec : (applySyncContrib c (presync
        (precommit t0 clock ws wd wg s).1).1).recalc = false := by
      rw [hpres, hpre]
      exact hrec.trans hrecF
    unfold fullStep
    rw [postsync_not_recalc stop clock _ hnorec, hpres, hpre]
    exact ⟨hF, rfl, rfl, rfl⟩
  · intro hgt
    have hcond : (degrade_update t0 (weather_update ws wd wg
        (reset_commit_accumulators s))).pole_status = PS_FAILED ∧
        ((clock - (degrade_update t0 (weather_update ws wd wg
          (reset_commit_accumulators s))).down_time : ℤ) : ℝ) / 3600.0
          > (degrade_update t0 (weather_update ws wd wg
              (reset_commit_accumulators s))).repair_time := by
      refine ⟨hst.trans hF, ?_⟩
      rw [hdt, hrt]
      exact hgt
    simp only [precommit]
    rw [if_pos hcond]
    refine ⟨?_, ?_, rfl, rfl, rfl⟩
    · norm_num [repair_update]
    · norm_num [repair_update]

/-- C4 witness: the theorem instantiated at a concrete FAILED state. -/
theorem c4_repair_law_witness :
    ({ base with pole_status := PS_FAILED } : PoleState).pole_status
        = PS_FAILED ∧
    ((((0 - ({ base with pole_status := PS_FAILED } :
          PoleState).down_time : ℤ) : ℝ) / 3600.0
        ≤ ({ base with pole_status := PS_FAILED } : PoleState).repair_time
        ∧ ({ base with pole_status := PS_FAILED } : PoleState).recalc
            = false →
      (fullStep false 0 0 none none none noContrib
          { base with pole_status := PS_FAILED }).1.pole_status
        = PS_FAILED ∧
      (fullStep false 0 0 none none none noContrib
          { base with pole_status := PS_FAILED }).1.down_time
        = ({ base with pole_status := PS_FAILED } : PoleState).down_time ∧
      (fullStep false 0 0 none none none noContrib
          { base with pole_status := PS_FAILED }).1.tilt_angle
        = ({ base with pole_status := PS_FAILED } : PoleState).tilt_angle ∧
      (fullStep false 0 0 none none none noContrib
          { base with pole_status := PS_FAILED }).1.install_year
        = ({ base with pole_status := PS_FAILED } :
            PoleState).install_year) ∧
    ((((0 - ({ base with pole_status := PS_FAILED} :
          PoleState).down_time : ℤ) : ℝ) / 3600.0
        > ({ base with pole_status := PS_FAILED} : PoleState).repair_time →
      (precommit 0 0 none none none
          { base with pole_status := PS_FAILED }).1.tilt_angle = 0 ∧
      (precommit 0 0 none none none
          { base with pole_status := PS_FAILED }).1.tilt_direction = 0 ∧
      (precommit 0 0 none none none
          { base with pole_status := PS_FAILED }).1.pole_status = PS_OK ∧
      (precommit 0 0 none none none
          { base with pole_status := PS_FAILED }).1.install_year
          = tyear 0 ∧
      (precommit 0 0 none none none
          { base with pole_status := PS_FAILED }).1.recalc = true))) :=
  ⟨rfl, c4_repair_law false 0 0 none none none noContrib
      { base with pole_status := PS_FAILED } rfl⟩

/-- C7: initialization fails exactly when the configuration reference is
missing or not a pole_configuration, the tilt angle is outside [0,90],
the tilt direction is outside [0,360), or none of the three repair time
sources (local, configuration, module default) is positive; on success
the repair time is resolved in that order. -/
theorem c7_init_failure (cfg : pole_configuration) (drt : ℝ)
    (s : PoleState) :
    init ConfigRef.missing drt s = none ∧
    init ConfigRef.notPoleConfig drt s = none ∧
    (init (ConfigRef.valid cfg) drt s = none ↔
      (s.tilt_angle < 0 ∨ 90 < s.tilt_angle ∨ s.tilt_direction < 0
        ∨ 360 ≤ s.tilt_direction
        ∨ (s.repair_time ≤ 0 ∧ cfg.repair_time ≤ 0 ∧ drt ≤ 0))) ∧
    ((init (ConfigRef.valid cfg) drt s).map PoleState.repair_time
      = if s.tilt_angle < 0 ∨ 90 < s.tilt_angle ∨ s.tilt_direction < 0
           ∨ 360 ≤ s.tilt_direction
           ∨ (s.repair_time ≤ 0 ∧ cfg.repair_time ≤ 0 ∧ drt ≤ 0)
        then none
        else some (if 0 < s.repair_time then s.repair_time
                   else if 0 < cfg.repair_time then cfg.repair_time
                   else drt)) := by
  have hiff : init (ConfigRef.valid cfg) drt s = none ↔
      (s.tilt_angle < 0 ∨ 90 < s.tilt_angle ∨ s.tilt_direction < 0
        ∨ 360 ≤ s.tilt_direction
        ∨ (s.repair_time ≤ 0 ∧ cfg.repair_time ≤ 0 ∧ drt ≤ 0)) := by
    simp only [init]
    split_ifs with h1 h2 h3
    · exact iff_of_true rfl (Or.inr (Or.inr (Or.inr (Or.inr
        ⟨h1.1, not_lt.mp h1.2.1, not_lt.mp h1.2.2⟩))))
    · exact iff_of_true rfl (by tauto)
    · exact iff_of_true rfl (by tauto)
    · refine iff_of_false (by simp) ?_
      rintro (h | h | h | h | h)
      · exact h2 (Or.inl h)
      · exact h2 (Or.inr h)
      · exact h3 (Or.inl h)
      · exact h3 (Or.inr h)
      · exact h1 ⟨h.1, not_lt.mpr h.2.1, not_lt.mpr h.2.2⟩
  refine ⟨rfl, rfl, hiff, ?_⟩
  by_cases hbig : (s.tilt_angle < 0 ∨ 90 < s.tilt_angle
      ∨ s.tilt_direction < 0 ∨ 360 ≤ s.tilt_direction
      ∨ (s.repair_time ≤ 0 ∧ cfg.repair_time ≤ 0 ∧ drt ≤ 0))
  · rw [if_pos hbig, hiff.mpr hbig]
    rfl
  · have hA : ¬ (s.tilt_angle < 0 ∨ 90 < s.tilt_angle) := by tauto
    have hB : ¬ (s.tilt_direction < 0 ∨ 360 ≤ s.tilt_direction) := by tauto
    have hC : ¬ (s.repair_time ≤ 0 ∧ cfg.repair_time ≤ 0 ∧ drt ≤ 0) := by
      tauto
    rw [if_neg hbig]
    simp only [init]
    rw [if_neg (fun h => hC ⟨h.1, not_lt.mp h.2.1, not_lt.mp h.2.2⟩),
        if_neg hA, if_neg hB]
    simp only [Option.map_some', Option.some.injEq]
    by_cases hsrt : 0 < s.repair_time
    · rw [if_neg (not_le.mpr hsrt), if_pos hsrt]
    · have hsle : s.repair_time ≤ 0 := not_lt.mp hsrt
      rw [if_pos hsle, if_neg hsrt]
      by_cases hcfg : 0 < cfg.repair_time
      · rw [if_pos hcfg, if_pos hcfg]
      · rw [if_neg hcfg, if_neg hcfg]
        by_cases hdrt : 0 < drt
        · rw [if_pos hdrt]
        · exact absurd ⟨hsle, not_lt.mp hcfg, not_lt.mp hdrt⟩ hC

/-- Auxiliary: the wind change trigger always sets the recalc flag. -/
theorem wind_change_recalc (s : PoleState) :
    (wind_change_update s).recalc = true := rfl

/-- C9: when the wind-change trigger fires in precommit (status OK and a
wind speed change), the presync reset zeroes the pole_moment computed by
the trigger before postsync runs; after the sync window pole_moment holds
exactly the collaborator contribution, and the total moment combined in
postsync contains only the sync contributions. -/
theorem c9_trigger_moment_reset (stop : Bool) (t0 clock : ℤ)
    (ws wd wg : Option ℝ) (c : Contrib) (s : PoleState)
    (hOK : s.pole_status = PS_OK)
    (hw : s.last_wind_speed ≠ ws.getD s.wind_speed) :
    (presync (precommit t0 clock ws wd wg s).1).1.pole_moment = 0 ∧
    (applySyncContrib c
        (presync (precommit t0 clock ws wd wg s).1).1).pole_moment
      = c.pole_moment ∧
    (postsync stop clock (applySyncContrib c
        (presync (precommit t0 clock ws wd wg s).1).1)).1.total_moment
      = c.pole_moment + c.equipment_moment + c.wire_moment
        + c.wire_tension := by
  have hst : (degrade_update t0 (weather_update ws wd wg
      (reset_commit_accumulators s))).pole_status = s.pole_status := rfl
  have hlast : (degrade_update t0 (weather_update ws wd wg
      (reset_commit_accumulators s))).last_wind_speed
        = s.last_wind_speed := rfl
  have hwind : (degrade_update t0 (weather_update ws wd wg
      (reset_commit_accumulators s))).wind_speed
        = ws.getD s.wind_speed := rfl
  have hpre : (precommit t0 clock ws wd wg s).1
      = wind_change_update (degrade_update t0 (weather_update ws wd wg
          (reset_commit_accumulators s))) := by
    simp only [precommit]
    rw [if_neg, if_pos]
    · exact ⟨hst.trans hOK, by rw [hlast, hwind]; exact hw⟩
    · simp [hst, hOK]
  have hrec : (precommit t0 clock ws wd wg s).1.recalc = true := by
    rw [hpre]
    exact wind_change_recalc _
  have hpresync : (presync (precommit t0 clock ws wd wg s).1).1
      = reset_sync_accumulators (precommit t0 clock ws wd wg s).1 := by
    simp [presync, hrec]
  have hrec3 : (applySyncContrib c
      (presync (precommit t0 clock ws wd wg s).1).1).recalc = true := by
    rw [hpresync]
    exact hrec
  refine ⟨?_, ?_, ?_⟩
  · rw [hpresync]
    rfl
  · rw [hpresync]
    exact zero_add _
  · simp only [postsync, hrec3, eq_self_iff_true, if_true]
    rw [hpresync]
    simp [applySyncContrib, reset_sync_accumulators]

/-- C9 witness: the theorem instantiated at a concrete OK state seeing a
wind speed change, with a concrete sync contribution. -/
theorem c9_trigger_moment_reset_witness :
    ({ base with wind_speed := 1 } : PoleState).pole_status = PS_OK ∧
    ({ base with wind_speed := 1 } : PoleState).last_wind_speed
        ≠ (none : Option ℝ).getD
            ({ base with wind_speed := 1 } : PoleState).wind_speed ∧
    ((presync (precommit 0 0 none none none
          { base with wind_speed := 1 }).1).1.pole_moment = 0 ∧
    (applySyncContrib noContrib
        (presync (precommit 0 0 none none none
          { base with wind_speed := 1 }).1).1).pole_moment
      = noContrib.pole_moment ∧
    (postsync false 0 (applySyncContrib noContrib
        (presync (precommit 0 0 none none none
          { base with wind_speed := 1 }).1).1)).1.total_moment
      = noContrib.pole_moment + noContrib.equipment_moment
        + noContrib.wire_moment + noContrib.wire_tension) :=
  ⟨rfl, by simp [base], c9_trigger_moment_reset false 0 0 none none none
      noContrib { base with wind_speed := 1 } rfl (by simp [base])⟩

/-- Auxiliary: the repair trigger commutes with overwriting the unused
wind_gusts field. -/
theorem repair_update_gusts (t0 : ℤ) (x : PoleState) (u : ℝ) :
    repair_update t0 { x with wind_gusts := u }
      = { repair_update t0 x with wind_gusts := u } := rfl

/-- Auxiliary: the wind change trigger commutes with overwriting the
unused wind_gusts field. -/
theorem wind_change_update_gusts (x : PoleState) (u : ℝ) :
    wind_change_update { x with wind_gusts := u }
      = { wind_change_update x with wind_gusts := u } := by
  simp only [wind_change_update]
  split_ifs <;> rfl

/-- Auxiliary: precommit output differs only in wind_gusts between two
runs that differ only in the local wind_gusts value and the bound gust
reference. -/
theorem precommit_gusts (t0 clock : ℤ) (ws wd g g' : Option ℝ) (a b : ℝ)
    (s : PoleState) :
    (precommit t0 clock ws wd g { s with wind_gusts := a }).1
      = { (precommit t0 clock ws wd g' { s with wind_gusts := b }).1 with
          wind_gusts := Option.getD g a } ∧
    (precommit t0 clock ws wd g { s with wind_gusts := a }).2
      = (precommit t0 clock ws wd g' { s with wind_gusts := b }).2 := by
  have h1 : degrade_update t0 (weather_update ws wd g
        (reset_commit_accumulators { s with wind_gusts := a }))
      = { degrade_update t0 (weather_update ws wd g'
            (reset_commit_accumulators { s with wind_gusts := b })) with
          wind_gusts := Option.getD g a } := rfl
  simp only [precommit, h1]
  constructor
  · split_ifs
    · exact repair_update_gusts t0 _ _
    · exact wind_change_update_gusts _ _
    · rfl
  · split_ifs <;> rfl

/-- Auxiliary: presync commutes with overwriting the unused wind_gusts
field. -/
theorem presync_gusts (x : PoleState) (u : ℝ) :
    (presync { x with wind_gusts := u }).1
      = { (presync x).1 with wind_gusts := u } := by
  simp only [presync]
  split_ifs <;> rfl

/-- Auxiliary: sync contributions commute with overwriting the unused
wind_gusts field. -/
theorem applySyncContrib_gusts (c : Contrib) (x : PoleState) (u : ℝ) :
    applySyncContrib c { x with wind_gusts := u }
      = { applySyncContrib c x with wind_gusts := u } := rfl

/-- Auxiliary: the postsync state commutes with overwriting the unused
wind_gusts field. -/
theorem postsync_gusts_fst (stop : Bool) (clock : ℤ) (x : PoleState)
    (u : ℝ) :
    (postsync stop clock { x with wind_gusts := u }).1
      = { (postsync stop clock x).1 with wind_gusts := u } := by
  simp only [postsync]
  split_ifs <;> rfl

/-- Auxiliary: the postsync return value ignores the wind_gusts field. -/
theorem postsync_gusts_snd (stop : Bool) (clock : ℤ) (x : PoleState)
    (u : ℝ) :
    (postsync stop clock { x with wind_gusts := u }).2
      = (postsync stop clock x).2 := by
  simp only [postsync]
  split_ifs <;> rfl

/-- C10: wind_gusts never influences any derived structural quantity:
two full steps differing only in the local wind_gusts value and the gust
reference produce states equal in every field except wind_gusts (hence
identical pole_moment, total_moment, resisting_moment, pole_stress,
susceptibility, critical_wind_speed and status) and the same next
wake-up value. -/
theorem c10_wind_gusts_noninterference (stop : Bool) (t0 clock : ℤ)
    (ws wd g g' : Option ℝ) (a b : ℝ) (c : Contrib) (s : PoleState) :
    (fullStep stop t0 clock ws wd g c { s with wind_gusts := a }).1
      = { (fullStep stop t0 clock ws wd g' c
            { s with wind_gusts := b }).1 with
          wind_gusts := Option.getD g a } ∧
    (fullStep stop t0 clock ws wd g c { s with wind_gusts := a }).2
      = (fullStep stop t0 clock ws wd g' c
          { s with wind_gusts := b }).2 := by
  have h1 := precommit_gusts t0 clock ws wd g g' a b s
  constructor
  · unfold fullStep
    rw [h1.1, presync_gusts, applySyncContrib_gusts, postsync_gusts_fst]
  · unfold fullStep
    rw [h1.1, presync_gusts, applySyncContrib_gusts, postsync_gusts_snd]

/-- C3: evaluation showing the stop_on_pole_failure divergence: on a
recalculating step whose outcome is status OK (stress 0 on a sound pole),
postsync with the stop flag set still returns TS_INVALID, the halt value,
rather than TS_NEVER. -/
theorem c3_stop_flag_halts_ok_pole :
    (postsync true 0 exC3).1.pole_status = PS_OK ∧
    (postsync true 0 exC3).2 = TS.invalid := by
  have hlt : (((0:ℝ) : EReal)) < 1 := ereal_coe_lt_one (by norm_num)
  constructor
  · simp only [postsync, exC3, base]
    norm_num [hlt]
  · simp only [postsync, exC3, base]
    norm_num
